import Mathlib

/-!
Shallow embedding of the GSAP animation wiring script of
`astro-sassify-template` (src/unnamed/part_000) and proofs about it.

The script queries the DOM for selectors and issues calls into the GSAP
animation engine (`gsap.set`, `gsap.to`, `ScrollTrigger.create`,
`gsap.timeline`).  We model the DOM as the pair of query functions the
script uses, and each function of the script as a computation producing
the list of engine calls it performs, in order.  Calling a JavaScript
value that is not a function throws a `TypeError`; that is the one
fallible primitive, so computations live in `Except JsError`.
-/

/-- A DOM element, identified by a number. -/
abbrev Elem := Nat

/-- The part of the DOM the script observes: `document.querySelector`
and `gsap.utils.toArray`, both keyed by a CSS selector string. -/
structure Dom where
  querySelector : String → Option Elem
  toArray : String → List Elem

/-- A JavaScript value passed as the `onComplete` argument.  Only the
distinction `typeof v === 'function'` matters to the script; function
values carry an identifier so that invocations can be traced. -/
inductive JsVal where
  | func (id : Nat)
  | undefined
  | null
  | number (q : ℚ)
  | string (s : String)
  | boolean (b : Bool)
deriving DecidableEq

/-- `typeof v === 'function'`. -/
def JsVal.isFunction : JsVal → Bool
  | .func _ => true
  | _ => false

/-- A value of a property in a configuration object literal. -/
inductive PropVal where
  | num (q : ℚ)
  | str (s : String)
  | cb
deriving DecidableEq

/-- A configuration object literal: ordered key/value pairs. -/
abbrev Props := List (String × PropVal)

/-- Look up a key in a configuration object. -/
def lookupProp (k : String) : Props → Option PropVal
  | [] => none
  | (k', v) :: rest => if k' = k then some v else lookupProp k rest

/-- The observable events of a run of the script: engine calls,
listener registrations, invocations of the user callback, and tween
completions (the engine's act of finishing a tween, which triggers the
tween's `onComplete` handler). -/
inductive Ev where
  | registerPlugin (name : String)
  | addEventListener (name : String)
  | gsapSet (targets : List Elem) (vars : Props)
  | gsapTo (targets : List Elem) (vars : Props) (handler : Option JsVal)
  | stCreate (trigger : Elem) (startPos : String) (endPos : Option String)
      (once : Bool) (enterTargets : List Elem) (enterVars : Props)
  | tlCreate (vars : Props)
  | tlTo (targets : List Elem) (vars : Props) (position : Option String)
  | callbackCall (id : Nat)
  | tweenComplete (targets : List Elem)
deriving DecidableEq

/-- The error a run can raise: calling a non-function value. -/
inductive JsError where
  | notAFunction
deriving DecidableEq

/-- Invoking a JavaScript value as a function: traces the call when it
is a function, throws `TypeError` otherwise. -/
def callFn (v : JsVal) : Except JsError (List Ev) :=
  match v with
  | .func id => .ok [Ev.callbackCall id]
  | _ => .error .notAFunction

/-- `const MAIN_CONTENT_SELECTOR = '#main-content'` (line 7). -/
def MAIN_CONTENT_SELECTOR : String := "#main-content"

/-- `pageLoadAnimation` (lines 13-25): fade in and slide up the main
content if present.  The function contains no fallible operation, so it
is a plain trace. -/
def pageLoadAnimation (dom : Dom) : List Ev :=
  match dom.querySelector MAIN_CONTENT_SELECTOR with
  | some mainContent =>
      [Ev.gsapSet [mainContent] [("opacity", .num 0), ("y", .num 20)],
       Ev.gsapTo [mainContent]
         [("opacity", .num 1), ("y", .num 0),
          ("duration", .num 0.5), ("ease", .str "power2.out")] none]
  | none => []

/-- The configuration object of the exit tween (lines 35-45), keys in
source order; its `onComplete` key holds the completion closure. -/
def exitVars : Props :=
  [("opacity", .num 0), ("y", .num (-20)), ("duration", .num 0.3),
   ("ease", .str "power2.in"), ("onComplete", .cb)]

/-- The `onComplete` closure of the exit tween (lines 40-44): invoke
the captured `onComplete` only when it is a function. -/
def exitOnCompleteHandler (onComplete : JsVal) : Except JsError (List Ev) :=
  if onComplete.isFunction then callFn onComplete else .ok []

/-- `pageExitAnimation` (lines 32-49): fade out and slide up the main
content, then run `onComplete`; when the main content is absent, just
call `onComplete` if it is a function. -/
def pageExitAnimation (onComplete : JsVal) (dom : Dom) : Except JsError (List Ev) :=
  match dom.querySelector MAIN_CONTENT_SELECTOR with
  | some mainContent =>
      .ok [Ev.gsapTo [mainContent] exitVars (some onComplete)]
  | none =>
      if onComplete.isFunction then callFn onComplete else .ok []

/-- Engine contract: finishing the events of a trace.  A `gsap.to`
tween eventually completes, emitting `tweenComplete` and running its
`onComplete` handler (here always the closure of lines 40-44). -/
def completeEv (e : Ev) : Except JsError (List Ev) :=
  match e with
  | .gsapTo targets _ (some h) => do
      let evs ← exitOnCompleteHandler h
      pure (Ev.tweenComplete targets :: evs)
  | .gsapTo targets _ none => .ok [Ev.tweenComplete targets]
  | _ => .ok []

/-- Sequence `completeEv` over a trace. -/
def completeAll : List Ev → Except JsError (List Ev)
  | [] => pure []
  | e :: rest => do
      let a ← completeEv e
      let b ← completeAll rest
      pure (a ++ b)

/-- Run a computation and then let the engine finish every tween it
started: the synchronous trace followed by the completion events. -/
def runToCompletion (c : Except JsError (List Ev)) : Except JsError (List Ev) := do
  let evs ← c
  let comps ← completeAll evs
  pure (evs ++ comps)

/-- The enter tween configuration for the service card at `index`
(lines 67-73): delay staggers by `index * 0.1`. -/
def serviceCardEnterVars (index : Nat) : Props :=
  [("autoAlpha", .num 1), ("y", .num 0), ("duration", .num 0.5),
   ("delay", .num ((index : ℚ) * 0.1)), ("ease", .str "power2.out")]

/-- The `cards.forEach((card, index) => ...)` loop of
`animateServiceCards` (lines 59-76). -/
def serviceCardsEvs : Nat → List Elem → List Ev
  | _, [] => []
  | index, card :: rest =>
      Ev.gsapSet [card] [("autoAlpha", .num 0), ("y", .num 50)] ::
      Ev.stCreate card "top 85%" (some "bottom 15%") true [card]
        (serviceCardEnterVars index) ::
      serviceCardsEvs (index + 1) rest

/-- `animateServiceCards` (lines 55-77). -/
def animateServiceCards (dom : Dom) : List Ev :=
  let cards := dom.toArray ".gsap-service-card"
  if cards.length = 0 then [] else serviceCardsEvs 0 cards

/-- The enter tween configuration for the featured work item at
`index` (lines 94-101): delay staggers by `index * 0.1`. -/
def featuredWorkEnterVars (index : Nat) : Props :=
  [("autoAlpha", .num 1), ("y", .num 0), ("scale", .num 1),
   ("duration", .num 0.5), ("delay", .num ((index : ℚ) * 0.1)),
   ("ease", .str "power2.out")]

/-- The `items.forEach((item, index) => ...)` loop of
`animateFeaturedWorkItems` (lines 87-104). -/
def featuredWorkEvs : Nat → List Elem → List Ev
  | _, [] => []
  | index, item :: rest =>
      Ev.gsapSet [item] [("autoAlpha", .num 0), ("y", .num 50), ("scale", .num 0.95)] ::
      Ev.stCreate item "top 85%" none true [item] (featuredWorkEnterVars index) ::
      featuredWorkEvs (index + 1) rest

/-- `animateFeaturedWorkItems` (lines 83-105). -/
def animateFeaturedWorkItems (dom : Dom) : List Ev :=
  let items := dom.toArray ".gsap-featured-work-item"
  if items.length = 0 then [] else featuredWorkEvs 0 items

/-- The enter tween configuration for the testimonial card at `index`
(lines 122-128): delay staggers by `index * 0.15`. -/
def testimonialCardEnterVars (index : Nat) : Props :=
  [("autoAlpha", .num 1), ("y", .num 0), ("duration", .num 0.5),
   ("delay", .num ((index : ℚ) * 0.15)), ("ease", .str "power2.out")]

/-- The `cards.forEach((card, index) => ...)` loop of
`animateTestimonials` (lines 115-131). -/
def testimonialCardsEvs : Nat → List Elem → List Ev
  | _, [] => []
  | index, card :: rest =>
      Ev.gsapSet [card] [("autoAlpha", .num 0), ("y", .num 50)] ::
      Ev.stCreate card "top 85%" none true [card] (testimonialCardEnterVars index) ::
      testimonialCardsEvs (index + 1) rest

/-- `animateTestimonials` (lines 110-150): testimonial cards, then the
testimonials CTA element, each guarded by its own presence check. -/
def animateTestimonials (dom : Dom) : List Ev :=
  let cards := dom.toArray ".gsap-testimonial-card"
  let cta := dom.querySelector ".gsap-testimonials-cta"
  (if 0 < cards.length then testimonialCardsEvs 0 cards else []) ++
    (match cta with
     | some c =>
         [Ev.gsapSet [c] [("autoAlpha", .num 0), ("y", .num 50)],
          Ev.stCreate c "top 90%" none true [c]
            [("autoAlpha", .num 1), ("y", .num 0), ("duration", .num 0.6),
             ("ease", .str "power2.out")]]
     | none => [])

/-- `animateCtaSection` (lines 155-173). -/
def animateCtaSection (dom : Dom) : List Ev :=
  match dom.querySelector ".gsap-cta-section" with
  | some section_ =>
      [Ev.gsapSet [section_] [("autoAlpha", .num 0), ("y", .num 50)],
       Ev.stCreate section_ "top 85%" none true [section_]
         [("autoAlpha", .num 1), ("y", .num 0), ("duration", .num 0.6),
          ("ease", .str "power2.out")]]
  | none => []

/-- The hero-section block of the `astro:page-load` listener
(lines 180-200): both primary hero elements must exist; the trusted-by
element is optional and filtered from the `gsap.set` target list and
appended to the timeline only when present. -/
def heroAnimation (dom : Dom) : List Ev :=
  let heroText := dom.querySelector ".gsap-hero-text-content"
  let heroImage := dom.querySelector ".gsap-hero-image-container"
  let heroTrustedBy := dom.querySelector ".gsap-hero-trusted-by"
  match heroText, heroImage with
  | some t, some i =>
      let elementsToAnimate := ([some t, some i, heroTrustedBy].filterMap id)
      if 0 < elementsToAnimate.length then
        [Ev.gsapSet elementsToAnimate [("autoAlpha", .num 0), ("y", .num 30)],
         Ev.tlCreate [("delay", .num 0.3)],
         Ev.tlTo [t] [("autoAlpha", .num 1), ("y", .num 0), ("duration", .num 0.6),
                      ("ease", .str "power2.out")] none,
         Ev.tlTo [i] [("autoAlpha", .num 1), ("y", .num 0), ("duration", .num 0.6),
                      ("ease", .str "power2.out")] (some "-=0.4")] ++
        (match heroTrustedBy with
         | some tb =>
             [Ev.tlTo [tb] [("autoAlpha", .num 1), ("y", .num 0), ("duration", .num 0.5),
                            ("ease", .str "power2.out")] (some "-=0.3")]
         | none => [])
      else []
  | _, _ => []

/-- The `astro:page-load` listener body (lines 176-213): the page-load
animation, the hero block, then the four scroll animators, in source
order.  None of these contains a fallible operation. -/
def onPageLoad (dom : Dom) : List Ev :=
  pageLoadAnimation dom ++ heroAnimation dom ++
    animateServiceCards dom ++ animateFeaturedWorkItems dom ++
    animateTestimonials dom ++ animateCtaSection dom

/-- The `astro:before-swap` listener body (lines 215-228): it calls
`pageExitAnimation` with an anonymous function (modelled as the
function value with identifier 0). -/
def onBeforeSwap (dom : Dom) : Except JsError (List Ev) :=
  pageExitAnimation (JsVal.func 0) dom

/-- Module top level (lines 4 and 176, 215): register the
ScrollTrigger plugin and subscribe to the two Astro lifecycle
events. -/
def moduleInit : List Ev :=
  [Ev.registerPlugin "ScrollTrigger",
   Ev.addEventListener "astro:page-load",
   Ev.addEventListener "astro:before-swap"]

/-- The event names the module subscribes to, read off `moduleInit`. -/
def subscribedEvents : List String :=
  moduleInit.filterMap (fun e =>
    match e with
    | .addEventListener n => some n
    | _ => none)

/-- The listeners the module installs, paired with their event names;
the page-load listener cannot fail, so it is lifted into `Except`. -/
def listenerTable : List (String × (Dom → Except JsError (List Ev))) :=
  [("astro:page-load", fun dom => .ok (onPageLoad dom)),
   ("astro:before-swap", onBeforeSwap)]

/-- GSAP position-parameter semantics for the forms this script uses:
no position appends at the current end of the timeline, and `"-=X"`
places the child X seconds before the current end.  The script only
ever passes `"-=0.4"` and `"-=0.3"`. -/
def posOffset : Option String → ℚ
  | none => 0
  | some "-=0.4" => -0.4
  | some "-=0.3" => -0.3
  | some _ => 0

/-- The `duration` setting of a configuration object (0 if absent). -/
def durationOf (vars : Props) : ℚ :=
  match lookupProp "duration" vars with
  | some (.num q) => q
  | _ => 0

/-- The `delay` setting of a configuration object (0 if absent). -/
def delayOf (vars : Props) : ℚ :=
  match lookupProp "delay" vars with
  | some (.num q) => q
  | _ => 0

/-- The timeline children of a trace: targets, duration and position
of each `.to` call on the timeline. -/
def tlChildren (evs : List Ev) : List (List Elem × ℚ × Option String) :=
  evs.filterMap (fun e =>
    match e with
    | .tlTo ts vars pos => some (ts, durationOf vars, pos)
    | _ => none)

/-- The `delay` of the first timeline created in a trace. -/
def tlDelay (evs : List Ev) : ℚ :=
  match evs.filterMap (fun e =>
    match e with
    | .tlCreate vars => some vars
    | _ => none) with
  | vars :: _ => delayOf vars
  | [] => 0

/-- One scheduled timeline child: its targets and its absolute start
and stop times. -/
structure TlStep where
  targets : List Elem
  start : ℚ
  stop : ℚ
deriving DecidableEq

/-- GSAP timeline scheduling: each child is placed relative to the
current end of the timeline according to its position parameter, and
the end of the timeline grows to cover the child. -/
def tlScheduleAux : ℚ → List (List Elem × ℚ × Option String) → List TlStep
  | _, [] => []
  | endTime, (ts, dur, pos) :: rest =>
      let s := endTime + posOffset pos
      let e := s + dur
      ⟨ts, s, e⟩ :: tlScheduleAux (max endTime e) rest

/-- The absolute schedule of the hero timeline built by the page-load
listener: children are timed from the timeline's `delay` after page
load. -/
def heroSchedule (dom : Dom) : List TlStep :=
  tlScheduleAux (tlDelay (heroAnimation dom)) (tlChildren (heroAnimation dom))

/-- Events that are calls into the animation engine. -/
def isEngineEv : Ev → Bool
  | .gsapSet _ _ => true
  | .gsapTo _ _ _ => true
  | .stCreate _ _ _ _ _ _ => true
  | .tlCreate _ => true
  | .tlTo _ _ _ => true
  | _ => false

/-- Events that are invocations of the user callback. -/
def isCallbackCall : Ev → Bool
  | .callbackCall _ => true
  | _ => false

/-- The setting keys the spec lists for animation configuration
objects: opacity/visibility, vertical offset, scale, duration, easing
curve, and (stagger) delay. -/
def styleKeys : List String :=
  ["opacity", "autoAlpha", "y", "scale", "duration", "ease", "delay"]

/-- A configuration object contains only the listed settings. -/
def configKeysOk (p : Props) : Bool :=
  p.all (fun kv => decide (kv.1 ∈ styleKeys))

/-- Every configuration object carried by an event contains only the
listed settings. -/
def evConfigsOk : Ev → Bool
  | .gsapSet _ v => configKeysOk v
  | .gsapTo _ v _ => configKeysOk v
  | .stCreate _ _ _ _ _ ev => configKeysOk ev
  | .tlCreate v => configKeysOk v
  | .tlTo _ v _ => configKeysOk v
  | _ => true

/-- A configuration object has a numeric `duration` setting. -/
def hasNumDuration (p : Props) : Bool :=
  match lookupProp "duration" p with
  | some (.num _) => true
  | _ => false

/-- The shape of a scroll animator's trace: for each element in turn,
an initial `gsap.set` on it, then a `ScrollTrigger.create` with that
element as trigger, `once: true`, and an enter tween on the same
element with a fixed numeric duration. -/
def isOneShotSeq : List Ev → Bool
  | [] => true
  | Ev.gsapSet [c] _ :: Ev.stCreate c' _ _ once [c''] enter :: rest =>
      (c' == c) && (c'' == c) && once && hasNumDuration enter && isOneShotSeq rest
  | _ => false

/-- A DOM in which every query comes up empty. -/
def domEmpty : Dom := ⟨fun _ => none, fun _ => []⟩

/-- A DOM holding only the `#main-content` element (element 0). -/
def domMc : Dom :=
  ⟨fun s => if s = "#main-content" then some 0 else none, fun _ => []⟩

/-- A DOM in which every selector the script uses matches. -/
def domFull : Dom :=
  ⟨fun s =>
    if s = "#main-content" then some 0
    else if s = ".gsap-hero-text-content" then some 1
    else if s = ".gsap-hero-image-container" then some 2
    else if s = ".gsap-hero-trusted-by" then some 3
    else if s = ".gsap-testimonials-cta" then some 4
    else if s = ".gsap-cta-section" then some 5
    else none,
   fun s =>
    if s = ".gsap-service-card" then [10, 11]
    else if s = ".gsap-featured-work-item" then [20, 21]
    else if s = ".gsap-testimonial-card" then [30, 31]
    else []⟩

/-- A DOM with both primary hero elements but no trusted-by element. -/
def domHeroNoTrustedBy : Dom :=
  ⟨fun s =>
    if s = ".gsap-hero-text-content" then some 1
    else if s = ".gsap-hero-image-container" then some 2
    else none,
   fun _ => []⟩

/-- A DOM with a hero image but no hero text element. -/
def domHeroNoText : Dom :=
  ⟨fun s =>
    if s = ".gsap-hero-image-container" then some 2
    else if s = ".gsap-hero-trusted-by" then some 3
    else none,
   fun _ => []⟩

/-- C1: if no element matches `#main-content`, `pageExitAnimation`
raises no exception and immediately invokes any function-valued
`onComplete`, performing no engine call at all: its trace, even run to
completion, is exactly the one callback invocation. -/
theorem C1_exit_absent_invokes_callback (dom : Dom) (n : Nat)
    (h : dom.querySelector MAIN_CONTENT_SELECTOR = none) :
    pageExitAnimation (JsVal.func n) dom = .ok [Ev.callbackCall n] ∧
    runToCompletion (pageExitAnimation (JsVal.func n) dom) = .ok [Ev.callbackCall n] ∧
    (Ev.callbackCall n) ∈ [Ev.callbackCall n] ∧ isEngineEv (Ev.callbackCall n) = false := by
  have h1 : pageExitAnimation (JsVal.func n) dom = .ok [Ev.callbackCall n] := by
    simp [pageExitAnimation, h, JsVal.isFunction, callFn]
  refine ⟨h1, ?_, List.mem_singleton.mpr rfl, rfl⟩
  simp [runToCompletion, h1, completeAll, completeEv, Bind.bind, Except.bind,
    Functor.map, Except.map, pure, Except.pure]

/-- C1 witness: a DOM with no `#main-content` and callback 7. -/
theorem C1_witness :
    pageExitAnimation (JsVal.func 7) domEmpty = .ok [Ev.callbackCall 7] ∧
    runToCompletion (pageExitAnimation (JsVal.func 7) domEmpty) = .ok [Ev.callbackCall 7] ∧
    (Ev.callbackCall 7) ∈ [Ev.callbackCall 7] ∧ isEngineEv (Ev.callbackCall 7) = false :=
  C1_exit_absent_invokes_callback domEmpty 7 rfl

/-- C2 counterexample: the claim says a function facing an absent
element "performs no other action", but `pageExitAnimation` with an
absent `#main-content` and a function-valued `onComplete` invokes that
callback — its trace is not empty. -/
theorem C2_counterexample :
    pageExitAnimation (JsVal.func 0) domEmpty = .ok [Ev.callbackCall 0] ∧
    pageExitAnimation (JsVal.func 0) domEmpty ≠ .ok [] := by
  constructor
  · rfl
  · intro hc
    simp [pageExitAnimation, domEmpty, JsVal.isFunction, callFn] at hc

/-- C2 amended: every queried element is null-checked, and when absent
the function performs no animation-engine call and raises no
exception; the one extra action is `pageExitAnimation` invoking its
function-valued callback. -/
theorem C2_amended_null_checks (dom : Dom) (v : JsVal)
    (hmc : dom.querySelector MAIN_CONTENT_SELECTOR = none)
    (hsc : dom.toArray ".gsap-service-card" = [])
    (hfw : dom.toArray ".gsap-featured-work-item" = [])
    (htc : dom.toArray ".gsap-testimonial-card" = [])
    (hcta : dom.querySelector ".gsap-testimonials-cta" = none)
    (hsec : dom.querySelector ".gsap-cta-section" = none)
    (hht : dom.querySelector ".gsap-hero-text-content" = none) :
    pageLoadAnimation dom = [] ∧
    animateServiceCards dom = [] ∧
    animateFeaturedWorkItems dom = [] ∧
    animateTestimonials dom = [] ∧
    animateCtaSection dom = [] ∧
    heroAnimation dom = [] ∧
    (∃ t, pageExitAnimation v dom = .ok t ∧ t.all (fun e => !isEngineEv e) = true) := by
  refine ⟨?_, ?_, ?_, ?_, ?_, ?_, ?_⟩
  · simp [pageLoadAnimation, hmc]
  · simp [animateServiceCards, hsc]
  · simp [animateFeaturedWorkItems, hfw]
  · simp [animateTestimonials, htc, hcta]
  · simp [animateCtaSection, hsec]
  · simp [heroAnimation, hht]
  · cases hv : v.isFunction with
    | true =>
        cases v with
        | func n =>
            exact ⟨[Ev.callbackCall n], by simp [pageExitAnimation, hmc, JsVal.isFunction, callFn],
              by simp [isEngineEv]⟩
        | undefined => simp [JsVal.isFunction] at hv
        | null => simp [JsVal.isFunction] at hv
        | number q => simp [JsVal.isFunction] at hv
        | string s => simp [JsVal.isFunction] at hv
        | boolean b => simp [JsVal.isFunction] at hv
    | false =>
        exact ⟨[], by simp [pageExitAnimation, hmc, hv], by simp⟩

/-- C2 witness: the empty DOM with `undefined` as callback. -/
theorem C2_amended_witness :
    pageLoadAnimation domEmpty = [] ∧
    animateServiceCards domEmpty = [] ∧
    animateFeaturedWorkItems domEmpty = [] ∧
    animateTestimonials domEmpty = [] ∧
    animateCtaSection domEmpty = [] ∧
    heroAnimation domEmpty = [] ∧
    (∃ t, pageExitAnimation JsVal.undefined domEmpty = .ok t ∧
      t.all (fun e => !isEngineEv e) = true) :=
  C2_amended_null_checks domEmpty JsVal.undefined rfl rfl rfl rfl rfl rfl rfl

/-- C8: `pageExitAnimation` never invokes a non-function `onComplete`
and never raises an exception, with or without a `#main-content`
element: the run to completion succeeds and its trace has no callback
invocation. -/
theorem C8_nonfunction_never_called (v : JsVal) (dom : Dom)
    (hv : v.isFunction = false) :
    ∃ t, runToCompletion (pageExitAnimation v dom) = .ok t ∧
      t.all (fun e => !isCallbackCall e) = true := by
  cases h : dom.querySelector MAIN_CONTENT_SELECTOR with
  | some mc =>
      refine ⟨[Ev.gsapTo [mc] exitVars (some v), Ev.tweenComplete [mc]], ?_, by simp [isCallbackCall]⟩
      have h1 : pageExitAnimation v dom = .ok [Ev.gsapTo [mc] exitVars (some v)] := by
        simp [pageExitAnimation, h]
      simp [runToCompletion, h1, completeAll, completeEv, exitOnCompleteHandler, hv,
        Bind.bind, Except.bind, Functor.map, Except.map, pure, Except.pure]
  | none =>
      refine ⟨[], ?_, by simp⟩
      have h1 : pageExitAnimation v dom = .ok [] := by
        simp [pageExitAnimation, h, hv]
      simp [runToCompletion, h1, completeAll, Bind.bind, Except.bind,
        Functor.map, Except.map, pure, Except.pure]

/-- C8 witness: `undefined` callback, once with and once without a
`#main-content` element. -/
theorem C8_witness :
    (∃ t, runToCompletion (pageExitAnimation JsVal.undefined domMc) = .ok t ∧
      t.all (fun e => !isCallbackCall e) = true) ∧
    (∃ t, runToCompletion (pageExitAnimation JsVal.undefined domEmpty) = .ok t ∧
      t.all (fun e => !isCallbackCall e) = true) :=
  ⟨C8_nonfunction_never_called JsVal.undefined domMc rfl,
   C8_nonfunction_never_called JsVal.undefined domEmpty rfl⟩

/-- C10: with an empty matched list, `animateServiceCards` and
`animateFeaturedWorkItems` return early with an empty trace: no
initial styles, no scroll triggers, no engine call at all. -/
theorem C10_empty_list_early_return (dom : Dom)
    (hsc : dom.toArray ".gsap-service-card" = [])
    (hfw : dom.toArray ".gsap-featured-work-item" = []) :
    animateServiceCards dom = [] ∧ animateFeaturedWorkItems dom = [] := by
  constructor
  · simp [animateServiceCards, hsc]
  · simp [animateFeaturedWorkItems, hfw]

/-- C10 witness: the empty DOM. -/
theorem C10_witness :
    animateServiceCards domEmpty = [] ∧ animateFeaturedWorkItems domEmpty = [] :=
  C10_empty_list_early_return domEmpty rfl rfl

theorem serviceCardsEvs_oneShot (l : List Elem) :
    ∀ i, isOneShotSeq (serviceCardsEvs i l) = true := by
  induction l with
  | nil => intro i; rfl
  | cons c rest ih =>
      intro i
      simp only [serviceCardsEvs, isOneShotSeq]
      simp [ih (i + 1), hasNumDuration, lookupProp, serviceCardEnterVars]

theorem featuredWorkEvs_oneShot (l : List Elem) :
    ∀ i, isOneShotSeq (featuredWorkEvs i l) = true := by
  induction l with
  | nil => intro i; rfl
  | cons c rest ih =>
      intro i
      simp only [featuredWorkEvs, isOneShotSeq]
      simp [ih (i + 1), hasNumDuration, lookupProp, featuredWorkEnterVars]

/-- C3: each scroll animator named by the claim is a one-shot
sequence.  When elements match, the trace alternates an initial
`gsap.set` on each element with a `ScrollTrigger.create` on it whose
`once` flag is `true` (so the engine fires it at most once) and whose
enter tween retargets the same element with a fixed numeric duration;
when no element matches, the trace is empty. -/
theorem C3_one_shot_sequences (dom : Dom) :
    isOneShotSeq (animateServiceCards dom) = true ∧
    isOneShotSeq (animateFeaturedWorkItems dom) = true ∧
    isOneShotSeq (animateCtaSection dom) = true ∧
    (dom.toArray ".gsap-service-card" = [] → animateServiceCards dom = []) ∧
    (dom.toArray ".gsap-featured-work-item" = [] → animateFeaturedWorkItems dom = []) ∧
    (dom.querySelector ".gsap-cta-section" = none → animateCtaSection dom = []) := by
  refine ⟨?_, ?_, ?_, ?_, ?_, ?_⟩
  · by_cases h : (dom.toArray ".gsap-service-card").length = 0
    · simp [animateServiceCards, h, isOneShotSeq]
    · simp only [animateServiceCards, h, if_false]
      exact serviceCardsEvs_oneShot _ 0
  · by_cases h : (dom.toArray ".gsap-featured-work-item").length = 0
    · simp [animateFeaturedWorkItems, h, isOneShotSeq]
    · simp only [animateFeaturedWorkItems, h, if_false]
      exact featuredWorkEvs_oneShot _ 0
  · cases h : dom.querySelector ".gsap-cta-section" with
    | some s => simp [animateCtaSection, h, isOneShotSeq, hasNumDuration, lookupProp]
    | none => simp [animateCtaSection, h, isOneShotSeq]
  · intro h; simp [animateServiceCards, h]
  · intro h; simp [animateFeaturedWorkItems, h]
  · intro h; simp [animateCtaSection, h]

/-- C3 witness: the full DOM (two cards, two items, a CTA section) and
the empty DOM. -/
theorem C3_witness :
    (isOneShotSeq (animateServiceCards domFull) = true ∧
     isOneShotSeq (animateFeaturedWorkItems domFull) = true ∧
     isOneShotSeq (animateCtaSection domFull) = true) ∧
    (animateServiceCards domEmpty = [] ∧
     animateFeaturedWorkItems domEmpty = [] ∧
     animateCtaSection domEmpty = []) :=
  ⟨⟨(C3_one_shot_sequences domFull).1, (C3_one_shot_sequences domFull).2.1,
    (C3_one_shot_sequences domFull).2.2.1⟩,
   ⟨(C3_one_shot_sequences domEmpty).2.2.2.1 rfl,
    (C3_one_shot_sequences domEmpty).2.2.2.2.1 rfl,
    (C3_one_shot_sequences domEmpty).2.2.2.2.2 rfl⟩⟩

/-- C5: the module subscribes to exactly the two Astro lifecycle
events, its installed listeners are the two handlers `onPageLoad` and
`onBeforeSwap` that dispatch all animation work, and the module's own
top level performs no animation-engine call. -/
theorem C5_two_lifecycle_events :
    subscribedEvents = ["astro:page-load", "astro:before-swap"] ∧
    listenerTable.map Prod.fst = subscribedEvents ∧
    moduleInit.all (fun e => !isEngineEv e) = true :=
  ⟨rfl, rfl, rfl⟩

/-- C9: the hero block animates only when both primary hero elements
exist.  If the text or the image element is missing nothing at all
happens (even a present trusted-by element is untouched); if both are
present the text and image are set and animated, with the trusted-by
tween appended exactly when that element exists. -/
theorem C9_hero_gating (dom : Dom) (t i tb : Elem) :
    (dom.querySelector ".gsap-hero-text-content" = none → heroAnimation dom = []) ∧
    (dom.querySelector ".gsap-hero-image-container" = none → heroAnimation dom = []) ∧
    (dom.querySelector ".gsap-hero-text-content" = some t →
     dom.querySelector ".gsap-hero-image-container" = some i →
     dom.querySelector ".gsap-hero-trusted-by" = none →
     heroAnimation dom =
       [Ev.gsapSet [t, i] [("autoAlpha", .num 0), ("y", .num 30)],
        Ev.tlCreate [("delay", .num 0.3)],
        Ev.tlTo [t] [("autoAlpha", .num 1), ("y", .num 0), ("duration", .num 0.6),
                     ("ease", .str "power2.out")] none,
        Ev.tlTo [i] [("autoAlpha", .num 1), ("y", .num 0), ("duration", .num 0.6),
                     ("ease", .str "power2.out")] (some "-=0.4")]) ∧
    (dom.querySelector ".gsap-hero-text-content" = some t →
     dom.querySelector ".gsap-hero-image-container" = some i →
     dom.querySelector ".gsap-hero-trusted-by" = some tb →
     heroAnimation dom =
       [Ev.gsapSet [t, i, tb] [("autoAlpha", .num 0), ("y", .num 30)],
        Ev.tlCreate [("delay", .num 0.3)],
        Ev.tlTo [t] [("autoAlpha", .num 1), ("y", .num 0), ("duration", .num 0.6),
                     ("ease", .str "power2.out")] none,
        Ev.tlTo [i] [("autoAlpha", .num 1), ("y", .num 0), ("duration", .num 0.6),
                     ("ease", .str "power2.out")] (some "-=0.4"),
        Ev.tlTo [tb] [("autoAlpha", .num 1), ("y", .num 0), ("duration", .num 0.5),
                      ("ease", .str "power2.out")] (some "-=0.3")]) := by
  refine ⟨?_, ?_, ?_, ?_⟩
  · intro h; simp [heroAnimation, h]
  · intro h
    cases ht : dom.querySelector ".gsap-hero-text-content" with
    | some x => simp [heroAnimation, ht, h]
    | none => simp [heroAnimation, ht]
  · intro ht hi htb
    simp [heroAnimation, ht, hi, htb]
  · intro ht hi htb
    simp [heroAnimation, ht, hi, htb]

/-- C9 witness: the hero cases exercised on concrete DOMs: missing
text, both primary elements without trusted-by, and all three. -/
theorem C9_witness :
    heroAnimation domHeroNoText = [] ∧
    heroAnimation domHeroNoTrustedBy =
      [Ev.gsapSet [1, 2] [("autoAlpha", .num 0), ("y", .num 30)],
       Ev.tlCreate [("delay", .num 0.3)],
       Ev.tlTo [1] [("autoAlpha", .num 1), ("y", .num 0), ("duration", .num 0.6),
                    ("ease", .str "power2.out")] none,
       Ev.tlTo [2] [("autoAlpha", .num 1), ("y", .num 0), ("duration", .num 0.6),
                    ("ease", .str "power2.out")] (some "-=0.4")] ∧
    heroAnimation domFull =
      [Ev.gsapSet [1, 2, 3] [("autoAlpha", .num 0), ("y", .num 30)],
       Ev.tlCreate [("delay", .num 0.3)],
       Ev.tlTo [1] [("autoAlpha", .num 1), ("y", .num 0), ("duration", .num 0.6),
                    ("ease", .str "power2.out")] none,
       Ev.tlTo [2] [("autoAlpha", .num 1), ("y", .num 0), ("duration", .num 0.6),
                    ("ease", .str "power2.out")] (some "-=0.4"),
       Ev.tlTo [3] [("autoAlpha", .num 1), ("y", .num 0), ("duration", .num 0.5),
                    ("ease", .str "power2.out")] (some "-=0.3")] :=
  ⟨(C9_hero_gating domHeroNoText 1 2 3).1 rfl,
   (C9_hero_gating domHeroNoTrustedBy 1 2 3).2.2.1 rfl rfl rfl,
   (C9_hero_gating domFull 1 2 3).2.2.2 rfl rfl rfl⟩

/-- C4: whenever `#main-content` is present, the run to completion of
`pageExitAnimation` with a function-valued callback is exactly: start
the 0.3s exit tween, the tween completes, and only then is the
callback invoked — completion precedes the callback in the trace. -/
theorem C4_completion_precedes_callback (dom : Dom) (mc : Elem) (n : Nat)
    (h : dom.querySelector MAIN_CONTENT_SELECTOR = some mc) :
    runToCompletion (pageExitAnimation (JsVal.func n) dom) =
      .ok [Ev.gsapTo [mc] exitVars (some (JsVal.func n)),
           Ev.tweenComplete [mc], Ev.callbackCall n] := by
  have h1 : pageExitAnimation (JsVal.func n) dom =
      .ok [Ev.gsapTo [mc] exitVars (some (JsVal.func n))] := by
    simp [pageExitAnimation, h]
  simp [runToCompletion, h1, completeAll, completeEv, exitOnCompleteHandler,
    JsVal.isFunction, callFn, Bind.bind, Except.bind, Functor.map, Except.map,
    pure, Except.pure]

/-- C4 witness: the DOM holding only `#main-content` and callback 5. -/
theorem C4_witness :
    runToCompletion (pageExitAnimation (JsVal.func 5) domMc) =
      .ok [Ev.gsapTo [0] exitVars (some (JsVal.func 5)),
           Ev.tweenComplete [0], Ev.callbackCall 5] :=
  C4_completion_precedes_callback domMc 0 5 rfl

/-- C6: with all three hero elements present, the hero timeline is
delayed 0.3s after page load, the hero image child starts 0.4s before
the hero text child ends, and the trusted-by child starts 0.3s before
the hero image child ends. -/
theorem C6_hero_timeline (dom : Dom) (t i tb : Elem)
    (ht : dom.querySelector ".gsap-hero-text-content" = some t)
    (hi : dom.querySelector ".gsap-hero-image-container" = some i)
    (htb : dom.querySelector ".gsap-hero-trusted-by" = some tb) :
    tlDelay (heroAnimation dom) = 0.3 ∧
    ∃ a b c, heroSchedule dom = [a, b, c] ∧
      a.targets = [t] ∧ b.targets = [i] ∧ c.targets = [tb] ∧
      b.start = a.stop - 0.4 ∧ c.start = b.stop - 0.3 := by
  have hh : heroAnimation dom =
      [Ev.gsapSet [t, i, tb] [("autoAlpha", .num 0), ("y", .num 30)],
       Ev.tlCreate [("delay", .num 0.3)],
       Ev.tlTo [t] [("autoAlpha", .num 1), ("y", .num 0), ("duration", .num 0.6),
                    ("ease", .str "power2.out")] none,
       Ev.tlTo [i] [("autoAlpha", .num 1), ("y", .num 0), ("duration", .num 0.6),
                    ("ease", .str "power2.out")] (some "-=0.4"),
       Ev.tlTo [tb] [("autoAlpha", .num 1), ("y", .num 0), ("duration", .num 0.5),
                     ("ease", .str "power2.out")] (some "-=0.3")] := by
    simp [heroAnimation, ht, hi, htb]
  have hc : tlChildren (heroAnimation dom) =
      [([t], 0.6, none), ([i], 0.6, some "-=0.4"), ([tb], 0.5, some "-=0.3")] := by
    rw [hh]; rfl
  have hd : tlDelay (heroAnimation dom) = 0.3 := by rw [hh]; rfl
  refine ⟨hd, ⟨[t], 0.3, 0.9⟩, ⟨[i], 0.5, 1.1⟩, ⟨[tb], 0.8, 1.3⟩, ?_, rfl, rfl, rfl,
    by norm_num, by norm_num⟩
  simp only [heroSchedule, hc, hd, tlScheduleAux, posOffset]
  norm_num [max_def, TlStep.mk.injEq]

/-- C6 witness: the full DOM, hero elements 1, 2 and 3. -/
theorem C6_witness :
    tlDelay (heroAnimation domFull) = 0.3 ∧
    ∃ a b c, heroSchedule domFull = [a, b, c] ∧
      a.targets = [1] ∧ b.targets = [2] ∧ c.targets = [3] ∧
      b.start = a.stop - 0.4 ∧ c.start = b.stop - 0.3 :=
  C6_hero_timeline domFull 1 2 3 rfl rfl rfl

theorem serviceCardsEvs_configsOk (l : List Elem) :
    ∀ i, (serviceCardsEvs i l).all evConfigsOk = true := by
  induction l with
  | nil => intro i; rfl
  | cons c rest ih =>
      intro i
      have h1 : evConfigsOk (Ev.gsapSet [c]
          [("autoAlpha", .num 0), ("y", .num 50)]) = true := rfl
      have h2 : evConfigsOk (Ev.stCreate c "top 85%" (some "bottom 15%") true [c]
          (serviceCardEnterVars i)) = true := rfl
      simp [serviceCardsEvs, h1, h2, ih (i + 1)]

theorem featuredWorkEvs_configsOk (l : List Elem) :
    ∀ i, (featuredWorkEvs i l).all evConfigsOk = true := by
  induction l with
  | nil => intro i; rfl
  | cons c rest ih =>
      intro i
      have h1 : evConfigsOk (Ev.gsapSet [c]
          [("autoAlpha", .num 0), ("y", .num 50), ("scale", .num 0.95)]) = true := rfl
      have h2 : evConfigsOk (Ev.stCreate c "top 85%" none true [c]
          (featuredWorkEnterVars i)) = true := rfl
      simp [featuredWorkEvs, h1, h2, ih (i + 1)]

theorem testimonialCardsEvs_configsOk (l : List Elem) :
    ∀ i, (testimonialCardsEvs i l).all evConfigsOk = true := by
  induction l with
  | nil => intro i; rfl
  | cons c rest ih =>
      intro i
      have h1 : evConfigsOk (Ev.gsapSet [c]
          [("autoAlpha", .num 0), ("y", .num 50)]) = true := rfl
      have h2 : evConfigsOk (Ev.stCreate c "top 85%" none true [c]
          (testimonialCardEnterVars i)) = true := rfl
      simp [testimonialCardsEvs, h1, h2, ih (i + 1)]

theorem pageLoadAnimation_configsOk (dom : Dom) :
    (pageLoadAnimation dom).all evConfigsOk = true := by
  rcases h : dom.querySelector MAIN_CONTENT_SELECTOR with _ | mc <;>
    simp only [pageLoadAnimation, h] <;> rfl

theorem heroAnimation_configsOk (dom : Dom) :
    (heroAnimation dom).all evConfigsOk = true := by
  rcases h1 : dom.querySelector ".gsap-hero-text-content" with _ | t <;>
  rcases h2 : dom.querySelector ".gsap-hero-image-container" with _ | i <;>
  rcases h3 : dom.querySelector ".gsap-hero-trusted-by" with _ | tb <;>
    simp only [heroAnimation, h1, h2, h3] <;> rfl

theorem animateServiceCards_configsOk (dom : Dom) :
    (animateServiceCards dom).all evConfigsOk = true := by
  by_cases h : (dom.toArray ".gsap-service-card").length = 0
  · simp [animateServiceCards, h]
  · simp only [animateServiceCards, h, if_false]
    exact serviceCardsEvs_configsOk _ 0

theorem animateFeaturedWorkItems_configsOk (dom : Dom) :
    (animateFeaturedWorkItems dom).all evConfigsOk = true := by
  by_cases h : (dom.toArray ".gsap-featured-work-item").length = 0
  · simp [animateFeaturedWorkItems, h]
  · simp only [animateFeaturedWorkItems, h, if_false]
    exact featuredWorkEvs_configsOk _ 0

theorem animateTestimonials_configsOk (dom : Dom) :
    (animateTestimonials dom).all evConfigsOk = true := by
  have hcta : ∀ o : Option Elem,
      ((match o with
        | some c =>
            [Ev.gsapSet [c] [("autoAlpha", .num 0), ("y", .num 50)],
             Ev.stCreate c "top 90%" none true [c]
               [("autoAlpha", .num 1), ("y", .num 0), ("duration", .num 0.6),
                ("ease", .str "power2.out")]]
        | none => []) : List Ev).all evConfigsOk = true := by
    intro o; rcases o with _ | c <;> rfl
  by_cases h : 0 < (dom.toArray ".gsap-testimonial-card").length <;>
    simp [animateTestimonials, h, List.all_append, hcta,
      testimonialCardsEvs_configsOk (dom.toArray ".gsap-testimonial-card") 0]

theorem animateCtaSection_configsOk (dom : Dom) :
    (animateCtaSection dom).all evConfigsOk = true := by
  rcases h : dom.querySelector ".gsap-cta-section" with _ | s <;>
    simp only [animateCtaSection, h] <;> rfl

theorem onPageLoad_configsOk (dom : Dom) :
    (onPageLoad dom).all evConfigsOk = true := by
  simp [onPageLoad, List.all_append, pageLoadAnimation_configsOk,
    heroAnimation_configsOk, animateServiceCards_configsOk,
    animateFeaturedWorkItems_configsOk, animateTestimonials_configsOk,
    animateCtaSection_configsOk]

/-- C7 counterexample: the exit tween's configuration object, passed
to the engine whenever `#main-content` is present, carries an
`onComplete` callback entry — a key outside the claimed setting list,
so not every engine configuration object contains only those
settings. -/
theorem C7_counterexample :
    pageExitAnimation (JsVal.func 0) domMc =
      .ok [Ev.gsapTo [0] exitVars (some (JsVal.func 0))] ∧
    configKeysOk exitVars = false ∧
    lookupProp "onComplete" exitVars = some PropVal.cb :=
  ⟨rfl, rfl, rfl⟩

/-- C7 amended: every configuration object the page-load work passes
to the engine contains only opacity/visibility, vertical offset,
scale, duration, easing and delay settings; the exit tween's object
contains only those settings plus its `onComplete` callback; and the
list animators' entrance delays are `index * 0.1` seconds (service
cards, featured work items) and `index * 0.15` seconds (testimonial
cards), strictly increasing with the index. -/
theorem C7_amended_config_objects (dom : Dom) (idx i j : Nat) (hij : i < j) :
    (onPageLoad dom).all evConfigsOk = true ∧
    (∀ kv ∈ exitVars, kv.1 ∈ styleKeys ∨ kv.1 = "onComplete") ∧
    delayOf (serviceCardEnterVars idx) = (idx : ℚ) * 0.1 ∧
    delayOf (featuredWorkEnterVars idx) = (idx : ℚ) * 0.1 ∧
    delayOf (testimonialCardEnterVars idx) = (idx : ℚ) * 0.15 ∧
    delayOf (serviceCardEnterVars i) < delayOf (serviceCardEnterVars j) ∧
    delayOf (featuredWorkEnterVars i) < delayOf (featuredWorkEnterVars j) ∧
    delayOf (testimonialCardEnterVars i) < delayOf (testimonialCardEnterVars j) := by
  have hq : (i : ℚ) < (j : ℚ) := by exact_mod_cast hij
  refine ⟨onPageLoad_configsOk dom, ?_, rfl, rfl, rfl, ?_, ?_, ?_⟩
  · intro kv hkv
    simp only [exitVars, List.mem_cons, List.not_mem_nil, or_false] at hkv
    rcases hkv with h | h | h | h | h <;> subst h <;> simp [styleKeys]
  · show (i : ℚ) * 0.1 < (j : ℚ) * 0.1
    exact mul_lt_mul_of_pos_right hq (by norm_num)
  · show (i : ℚ) * 0.1 < (j : ℚ) * 0.1
    exact mul_lt_mul_of_pos_right hq (by norm_num)
  · show (i : ℚ) * 0.15 < (j : ℚ) * 0.15
    exact mul_lt_mul_of_pos_right hq (by norm_num)

/-- C7 witness: the full DOM, index 4, indices 1 < 2. -/
theorem C7_witness :
    (onPageLoad domFull).all evConfigsOk = true ∧
    (∀ kv ∈ exitVars, kv.1 ∈ styleKeys ∨ kv.1 = "onComplete") ∧
    delayOf (serviceCardEnterVars 4) = ((4 : Nat) : ℚ) * 0.1 ∧
    delayOf (featuredWorkEnterVars 4) = ((4 : Nat) : ℚ) * 0.1 ∧
    delayOf (testimonialCardEnterVars 4) = ((4 : Nat) : ℚ) * 0.15 ∧
    delayOf (serviceCardEnterVars 1) < delayOf (serviceCardEnterVars 2) ∧
    delayOf (featuredWorkEnterVars 1) < delayOf (featuredWorkEnterVars 2) ∧
    delayOf (testimonialCardEnterVars 1) < delayOf (testimonialCardEnterVars 2) :=
  C7_amended_config_objects domFull 4 1 2 (by decide)
